import Mathlib

/-
  Shallow embedding of the tool-calling orchestration core of the
  Todo-Web backend (src/backend/src):
    - mcp/tools/{add_task,list_tasks,complete_task,delete_task,update_task}.py
    - mcp/server.py, agents/orchestrator.py, agents/cohere_client.py
    - validation/security_guard.py, services/conversation_service.py

  Python scalar values appearing in tool parameter mappings are embedded
  as `PyVal`; parameter dictionaries as association lists with
  first-occurrence lookup; the SQL task table as a list of `Task` rows;
  datetimes as integers; the external Cohere gateway as a script of
  outcomes consumed one per call.
-/

namespace TodoChat

/-- Scalar JSON/Python value occurring in a tool parameter mapping. -/
inductive PyVal where
  | int (n : Int)
  | str (s : String)
  | bool (b : Bool)
  | none
deriving DecidableEq, Repr

/-- Python truthiness (`if v:`) of a scalar value. -/
def py_truthy : PyVal → Bool
  | .int n => n != 0
  | .str s => s != ""
  | .bool b => b
  | .none => false

/-- `str(v)` as used in f-string interpolation. -/
def py_fstr : PyVal → String
  | .int n => toString n
  | .str s => s
  | .bool b => if b then ("True") else ("False")
  | .none => ("None")

/-- A parameter dictionary: keys with scalar values, first occurrence wins. -/
abbrev Params := List (String × PyVal)

/-- Dictionary lookup `p.get(k)`. -/
def getParam (p : Params) (k : String) : Option PyVal :=
  (p.find? (fun kv => kv.1 == k)).map (fun kv => kv.2)

/-- Remove a key from a dictionary. -/
def dropParam (p : Params) (k : String) : Params :=
  p.filter (fun kv => kv.1 != k)

/-- Dictionary assignment `p[k] = v` (Python dict semantics: the resulting
    key-to-value mapping; position is irrelevant because tools are invoked
    with keyword arguments). -/
def setParam (p : Params) (k : String) (v : PyVal) : Params :=
  dropParam p k ++ [(k, v)]

/-- A row of the `tasks` table as the five tools read and write it.
    (Columns `category`, `due_date`, `priority` and the recurrence fields
    exist in models/task.py but are never read or written by any tool;
    datetimes are embedded as integers.) -/
structure Task where
  id : Int
  user_id : Int
  title : String
  description : String
  completed : Bool
  created_at : Int
  updated_at : Int
deriving DecidableEq, Repr

/-- The task store (the `tasks` table). -/
abbrev Store := List Task

/-- `datetime.isoformat()`, abstracted to an injective rendering. -/
def isoformat (t : Int) : String := toString t

/-- A task as serialized into a tool result `data` payload. -/
structure TaskOut where
  id : Int
  title : String
  description : String
  completed : Bool
  created_at : String
  updated_at : String
deriving DecidableEq, Repr

/-- Value inside a tool result `data` mapping. -/
inductive DVal where
  | int (n : Int)
  | str (s : String)
  | bool (b : Bool)
  | tasks (ts : List TaskOut)
deriving DecidableEq, Repr

abbrev EnvData := List (String × DVal)

/-- Tool result envelope. `errorCode`/`data` are `Option` because the
    orchestrator's exception path builds a dict holding only `success`
    and `message` (orchestrator.py lines 91-97), while handler results
    always carry `data` and carry `error_code` exactly on failure. -/
structure Envelope where
  success : Bool
  message : String
  errorCode : Option String
  data : Option EnvData
deriving DecidableEq, Repr

/-- `MCPToolBase.create_success_result` (base.py): success dict with
    `success`, `message`, `data` keys and no `error_code`. -/
def create_success_result (message : String) (data : EnvData) : Envelope :=
  { success := true, message := message, errorCode := Option.none, data := some data }

/-- `MCPToolBase.create_error_result` (base.py). -/
def create_error_result (message : String) (code : String) : Envelope :=
  { success := false, message := message, errorCode := some code, data := some [] }

/- ---------- string helpers for ILIKE matching ---------- -/

/-- Boolean list-level check that `pat` starts `l`. -/
def startsWithB : List Char → List Char → Bool
  | [], _ => true
  | _ :: _, [] => false
  | a :: as, b :: bs => a == b && startsWithB as bs

/-- Boolean list-level substring containment. -/
def containsSub : List Char → List Char → Bool
  | [], pat => pat.isEmpty
  | c :: cs, pat => startsWithB pat (c :: cs) || containsSub cs pat

/-- `Task.title.ilike(f"%{pat}%")`: case-insensitive substring match
    (for patterns without further SQL wildcard characters). -/
def ilike (title pat : String) : Bool :=
  containsSub (title.data.map Char.toLower) (pat.data.map Char.toLower)

/-- Drop leading characters satisfying a predicate. -/
def dropLeading (p : Char → Bool) : List Char → List Char
  | [] => []
  | c :: cs => if p c then dropLeading p cs else c :: cs

/-- `str.strip()`: remove surrounding whitespace. -/
def py_strip (s : String) : String :=
  String.mk (((dropLeading Char.isWhitespace s.data).reverse
    |> dropLeading Char.isWhitespace).reverse)

/- ---------- security guard ---------- -/

/-- `SecurityGuard.validate_user_id` raises exactly when
    `not user_id or user_id <= 0`; for an integer this is `user_id <= 0`. -/
def invalid_user_id (n : Int) : Bool := n ≤ 0

/-- Result of running `validate_user_id` on an arbitrary scalar value.
    Python `bool` is an `int` subtype (`True` compares as 1); comparing a
    nonempty string with 0 raises `TypeError`, which the handler bodies
    catch as a generic exception. -/
inductive UidCheck where
  | ok (n : Int)
  | invalid
  | typeErr
deriving DecidableEq, Repr

def uid_check : PyVal → UidCheck
  | .int n => if n ≤ 0 then .invalid else .ok n
  | .bool b => if b then .ok 1 else .invalid
  | .str s => if s == "" then .invalid else .typeErr
  | .none => .invalid

/-- Equality test of the integer `Task.id` column against a scalar bound
    parameter (`Task.id == task_id`). A boolean compares as its integer
    value; other non-integer values match no row. -/
def pvMatchesId (v : PyVal) (id : Int) : Bool :=
  match v with
  | .int n => n == id
  | .bool b => (if b then (1 : Int) else 0) == id
  | _ => false

/-- `SecurityGuard.validate_task_ownership`: the first row with the given
    id owned by the given user, `ValueError` (modelled as `Option.none`)
    whether the task is absent or owned by someone else. -/
def validate_task_ownership (st : Store) (task_id : PyVal) (user_id : Int) : Option Task :=
  (st.filter (fun t => pvMatchesId task_id t.id && t.user_id == user_id)).head?

/-- The title search shared by complete/delete/update:
    `select(Task).where(Task.user_id == user_id, Task.title.ilike(f"%{p}%"))`. -/
def find_by_title (st : Store) (user_id : Int) (pat : PyVal) : List Task :=
  st.filter (fun t => t.user_id == user_id && ilike t.title (py_fstr pat))

/-- Candidate line in the AMBIGUOUS_MATCH message: `- {title} (ID: {id})`. -/
def candidate_line (t : Task) : String :=
  ("- ") ++ t.title ++ (" (ID: ") ++ toString t.id ++ (")")

def ambiguous_message (ts : List Task) : String :=
  ("Multiple tasks match that description:\n")
    ++ String.intercalate ("\n") (ts.map candidate_line)
    ++ ("\nPlease be more specific or use the task ID.")

/-- Replace the row with the updated task's id (`db.add` + `db.commit`
    on a loaded row). -/
def storeUpdate (st : Store) (t : Task) : Store :=
  st.map (fun u => if u.id == t.id then t else u)

/-- Delete the row (`db.delete` + `db.commit`). -/
def storeDelete (st : Store) (t : Task) : Store :=
  st.filter (fun u => u.id != t.id)

/- ---------- tool handlers ---------- -/

/-- Fresh-id and clock context threaded through executions (autoincrement
    primary key and `datetime.utcnow`). -/
structure Ctx where
  nextId : Int
  now : Int
deriving DecidableEq, Repr

/-- `description.strip() if description else ""`: `Option.none` models
    the `AttributeError` a truthy non-string raises at `.strip()`. -/
def desc_strip (descV : PyVal) : Option String :=
  if py_truthy descV then
    match descV with
    | .str d => some (py_strip d)
    | _ => Option.none
  else some ("")

/-- `AddTaskTool.execute` body (add_task.py lines 61-108), on already-bound
    arguments. A truthy non-string `title` or `description` hits
    `.strip()` with `AttributeError`, caught by the generic handler as
    DATABASE_ERROR. -/
def add_task_run (uidV titleV descV : PyVal) (st : Store) (ctx : Ctx) :
    Envelope × Store × Ctx :=
  match uid_check uidV with
  | .invalid => (create_error_result ("Invalid user_id") ("VALIDATION_ERROR"), st, ctx)
  | .typeErr =>
    (create_error_result ("Failed to create task. Please try again.") ("DATABASE_ERROR"), st, ctx)
  | .ok uid =>
    if !py_truthy titleV then
      (create_error_result ("Task title cannot be empty") ("INVALID_TITLE"), st, ctx)
    else
      match titleV with
      | .str s =>
        if py_strip s == "" then
          (create_error_result ("Task title cannot be empty") ("INVALID_TITLE"), st, ctx)
        else
          match desc_strip descV with
          | Option.none =>
            (create_error_result ("Failed to create task. Please try again.") ("DATABASE_ERROR"),
             st, ctx)
          | some desc =>
            let task : Task :=
              { id := ctx.nextId, user_id := uid, title := py_strip s, description := desc,
                completed := false, created_at := ctx.now, updated_at := ctx.now }
            (create_success_result (("Task \x27") ++ s ++ ("\x27 created successfully"))
               [(("task_id"), .int task.id), (("title"), .str task.title),
                (("description"), .str task.description), (("completed"), .bool task.completed),
                (("created_at"), .str (isoformat task.created_at))],
             st ++ [task], { nextId := ctx.nextId + 1, now := ctx.now })
      | _ =>
        (create_error_result ("Failed to create task. Please try again.") ("DATABASE_ERROR"),
         st, ctx)

/-- Result of the shared find-by-id-or-title step. -/
inductive FindResult where
  | found (t : Task)
  | failed (env : Envelope)
deriving DecidableEq, Repr

/-- The task lookup shared by complete/delete/update: id path through
    `validate_task_ownership`, else the ilike title search with not-found
    and ambiguity handling. -/
def find_task (st : Store) (uid : Int) (tidV ttV : PyVal) (notFoundMsg : String) : FindResult :=
  if py_truthy tidV then
    match validate_task_ownership st tidV uid with
    | some t => .found t
    | Option.none =>
      .failed (create_error_result ("Task not found or access denied") ("VALIDATION_ERROR"))
  else
    match find_by_title st uid ttV with
    | [] => .failed (create_error_result notFoundMsg ("TASK_NOT_FOUND"))
    | [t] => .found t
    | ts => .failed (create_error_result (ambiguous_message ts) ("AMBIGUOUS_MATCH"))

/-- The tail of `CompleteTaskTool.execute` after the task is found
    (complete_task.py lines 105-132). -/
def complete_found (t : Task) (st : Store) : Envelope × Store :=
  if t.completed then
    (create_success_result (("Task \x27") ++ t.title ++ ("\x27 is already marked as complete"))
       [(("task_id"), .int t.id), (("title"), .str t.title), (("completed"), .bool true)], st)
  else
    let t' := { t with completed := true }
    (create_success_result (("Task \x27") ++ t'.title ++ ("\x27 marked as complete"))
       [(("task_id"), .int t'.id), (("title"), .str t'.title),
        (("completed"), .bool t'.completed),
        (("updated_at"), .str (isoformat t'.updated_at))],
     storeUpdate st t')

/-- `CompleteTaskTool.execute` body on bound arguments. -/
def complete_task_run (uidV tidV ttV : PyVal) (st : Store) : Envelope × Store :=
  match uid_check uidV with
  | .invalid => (create_error_result ("Invalid user_id") ("VALIDATION_ERROR"), st)
  | .typeErr =>
    (create_error_result ("Failed to complete task. Please try again.") ("DATABASE_ERROR"), st)
  | .ok uid =>
    if !py_truthy tidV && !py_truthy ttV then
      (create_error_result ("Please specify either a task ID or task title")
        ("MISSING_IDENTIFIER"), st)
    else
      match find_task st uid tidV ttV ("Task not found. Use \x27show tasks\x27 to see your list") with
      | .failed env => (env, st)
      | .found t => complete_found t st

/-- `DeleteTaskTool.execute` body on bound arguments. -/
def delete_task_run (uidV tidV ttV : PyVal) (st : Store) : Envelope × Store :=
  match uid_check uidV with
  | .invalid => (create_error_result ("Invalid user_id") ("VALIDATION_ERROR"), st)
  | .typeErr =>
    (create_error_result ("Failed to delete task. Please try again.") ("DATABASE_ERROR"), st)
  | .ok uid =>
    if !py_truthy tidV && !py_truthy ttV then
      (create_error_result ("Please specify either a task ID or task title")
        ("MISSING_IDENTIFIER"), st)
    else
      match find_task st uid tidV ttV ("Task not found") with
      | .failed env => (env, st)
      | .found t =>
        (create_success_result (("Task \x27") ++ t.title ++ ("\x27 has been deleted"))
           [(("task_id"), .int t.id), (("title"), .str t.title)],
         storeDelete st t)

/-- The `new_title` well-formedness check of `UpdateTaskTool.execute`
    (`if new_title and not new_title.strip()`): `some env` when it exits
    with an error (an empty stripped title, or the `AttributeError` a
    truthy non-string raises at `.strip()`). -/
def update_title_precheck (newTitleV : PyVal) : Option Envelope :=
  if py_truthy newTitleV then
    match newTitleV with
    | .str s =>
      if py_strip s == "" then
        some (create_error_result ("Task title cannot be empty") ("INVALID_TITLE"))
      else Option.none
    | _ =>
      some (create_error_result ("Failed to update task. Please try again.") ("DATABASE_ERROR"))
  else Option.none

/-- `if new_title: task.title = new_title.strip()` applied to a found
    task (only reached when a truthy `new_title` is a string). -/
def updated_title (t : Task) (newTitleV : PyVal) : Task :=
  if py_truthy newTitleV then
    { t with title := py_strip (match newTitleV with | .str s => s | _ => "") }
  else t

/-- The found task after both update assignments. -/
def update_applied (t : Task) (newTitleV newDescV : PyVal) : Task :=
  match newDescV with
  | .str d => { updated_title t newTitleV with description := py_strip d }
  | _ => updated_title t newTitleV

/-- The update_task success envelope for the committed row. -/
def update_success_env (t : Task) : Envelope :=
  create_success_result ("Task updated successfully")
    [(("task_id"), .int t.id), (("title"), .str t.title),
     (("description"), .str t.description), (("completed"), .bool t.completed),
     (("updated_at"), .str (isoformat t.updated_at))]

/-- `UpdateTaskTool.execute` body on bound arguments. A truthy non-string
    `new_title` or a non-None non-string `new_description` raises
    `AttributeError` at `.strip()`; the latter happens after the title
    assignment but before commit, so the transaction rolls back. -/
def update_task_run (uidV tidV ttV newTitleV newDescV : PyVal) (st : Store) :
    Envelope × Store :=
  match uid_check uidV with
  | .invalid => (create_error_result ("Invalid user_id") ("VALIDATION_ERROR"), st)
  | .typeErr =>
    (create_error_result ("Failed to update task. Please try again.") ("DATABASE_ERROR"), st)
  | .ok uid =>
    if !py_truthy tidV && !py_truthy ttV then
      (create_error_result ("Please specify either a task ID or task title")
        ("MISSING_IDENTIFIER"), st)
    else if !py_truthy newTitleV && newDescV == .none then
      (create_error_result ("Please specify what you\x27d like to update") ("NO_UPDATES"), st)
    else
      match update_title_precheck newTitleV with
      | some env => (env, st)
      | Option.none =>
        match find_task st uid tidV ttV
            ("Task not found. Use \x27show tasks\x27 to see your list") with
        | .failed env => (env, st)
        | .found t =>
          match newDescV with
          | .none =>
            (update_success_env (update_applied t newTitleV newDescV),
             storeUpdate st (update_applied t newTitleV newDescV))
          | .str _ =>
            (update_success_env (update_applied t newTitleV newDescV),
             storeUpdate st (update_applied t newTitleV newDescV))
          | _ =>
            (create_error_result ("Failed to update task. Please try again.")
              ("DATABASE_ERROR"), st)

/-- Does a task pass the list_tasks status filter? -/
def matches_filter (f : String) (t : Task) : Bool :=
  if f == "pending" then !t.completed
  else if f == "completed" then t.completed
  else true

/-- The SELECT built by `ListTasksTool.execute` before LIMIT: owner rows
    passing the status filter, ordered by `created_at` descending
    (ties in unspecified order, here the stable one). -/
def tasks_query (st : Store) (uid : Int) (f : String) : List Task :=
  List.insertionSort (fun a b => b.created_at ≤ a.created_at)
    (st.filter (fun t => t.user_id == uid && matches_filter f t))

/-- SQL LIMIT applied to a scalar bound value: a negative or NULL limit
    returns all rows, a boolean counts as its integer value, and a
    non-numeric limit raises in the backend (`Option.none`). -/
def apply_limit (l : List Task) (limitV : PyVal) : Option (List Task) :=
  match limitV with
  | .int n => some (if n < 0 then l else l.take n.toNat)
  | .bool b => some (l.take (if b then 1 else 0))
  | .none => some l
  | .str _ => Option.none

/-- A task serialized for the list_tasks `data.tasks` payload. -/
def task_out (t : Task) : TaskOut :=
  ⟨t.id, t.title, t.description, t.completed, isoformat t.created_at, isoformat t.updated_at⟩

/-- The list_tasks summary message (note the doubled space for
    filter "all", exactly as the f-string produces). -/
def list_message (f : String) (n : Nat) : String :=
  if n == 0 then ("You have no tasks yet. Add one to get started!")
  else
    ("You have ") ++ toString n ++ (" ") ++ (if f != "all" then f else "")
      ++ (" task") ++ (if n != 1 then ("s") else (""))

/-- `ListTasksTool.execute` body on bound arguments. The store is
    returned unchanged: the handler never writes. -/
def list_tasks_run (uidV filterV limitV : PyVal) (st : Store) : Envelope × Store :=
  match uid_check uidV with
  | .invalid => (create_error_result ("Invalid user_id") ("VALIDATION_ERROR"), st)
  | .typeErr =>
    (create_error_result ("Failed to retrieve tasks. Please try again.") ("DATABASE_ERROR"), st)
  | .ok uid =>
    match filterV with
    | .str f =>
      if [("all"), ("pending"), ("completed")].contains f then
        match apply_limit (tasks_query st uid f) limitV with
        | Option.none =>
          (create_error_result ("Failed to retrieve tasks. Please try again.")
            ("DATABASE_ERROR"), st)
        | some sel =>
          (create_success_result (list_message f sel.length)
             [(("tasks"), .tasks (sel.map task_out)),
              (("count"), .int (Int.ofNat sel.length)),
              (("filter"), .str f)], st)
      else
        (create_error_result ("Filter must be \x27all\x27, \x27pending\x27, or \x27completed\x27")
          ("INVALID_FILTER"), st)
    | _ =>
      (create_error_result ("Filter must be \x27all\x27, \x27pending\x27, or \x27completed\x27")
        ("INVALID_FILTER"), st)

/- ---------- MCP server: tool dispatch ---------- -/

/-- Outcome of `MCPServer.execute_tool`: a returned envelope with the
    updated store and context, or an exception escaping the call (the
    unknown-tool `ValueError` from `get_tool` and argument-binding
    `TypeError`s; handler bodies catch everything else). An escaping
    exception leaves the store untouched. -/
inductive ExecOutcome where
  | ok (env : Envelope) (st : Store) (ctx : Ctx)
  | exn (msg : String)
deriving DecidableEq, Repr

/-- Keyword-argument binding plus `AddTaskTool.execute`; `user_id` and
    `title` have no default, `description` defaults to the empty string. -/
def add_task_call (p : Params) (st : Store) (ctx : Ctx) : ExecOutcome :=
  match getParam p ("user_id"), getParam p ("title") with
  | some u, some ti =>
    let r := add_task_run u ti ((getParam p ("description")).getD (.str "")) st ctx
    .ok r.1 r.2.1 r.2.2
  | _, _ => .exn ("execute() missing required positional argument")

def complete_task_call (p : Params) (st : Store) (ctx : Ctx) : ExecOutcome :=
  match getParam p ("user_id") with
  | some u =>
    let r := complete_task_run u ((getParam p ("task_id")).getD .none)
      ((getParam p ("task_title")).getD .none) st
    .ok r.1 r.2 ctx
  | Option.none => .exn ("execute() missing required positional argument")

def delete_task_call (p : Params) (st : Store) (ctx : Ctx) : ExecOutcome :=
  match getParam p ("user_id") with
  | some u =>
    let r := delete_task_run u ((getParam p ("task_id")).getD .none)
      ((getParam p ("task_title")).getD .none) st
    .ok r.1 r.2 ctx
  | Option.none => .exn ("execute() missing required positional argument")

def update_task_call (p : Params) (st : Store) (ctx : Ctx) : ExecOutcome :=
  match getParam p ("user_id") with
  | some u =>
    let r := update_task_run u ((getParam p ("task_id")).getD .none)
      ((getParam p ("task_title")).getD .none)
      ((getParam p ("new_title")).getD .none)
      ((getParam p ("new_description")).getD .none) st
    .ok r.1 r.2 ctx
  | Option.none => .exn ("execute() missing required positional argument")

def list_tasks_call (p : Params) (st : Store) (ctx : Ctx) : ExecOutcome :=
  match getParam p ("user_id") with
  | some u =>
    let r := list_tasks_run u ((getParam p ("filter")).getD (.str ("all")))
      ((getParam p ("limit")).getD (.int 50)) st
    .ok r.1 r.2 ctx
  | Option.none => .exn ("execute() missing required positional argument")

/-- The five names `register_all_tools` registers, in order. -/
def registered_tool_names : List String :=
  [("add_task"), ("list_tasks"), ("complete_task"), ("delete_task"), ("update_task")]

/-- `MCPServer.execute_tool` over the registry populated by
    `register_all_tools`; an unregistered name raises
    `ValueError(f"Tool '{name}' not found in MCP server")`. -/
def execute_tool (name : String) (p : Params) (st : Store) (ctx : Ctx) : ExecOutcome :=
  if name == "add_task" then add_task_call p st ctx
  else if name == "list_tasks" then list_tasks_call p st ctx
  else if name == "complete_task" then complete_task_call p st ctx
  else if name == "delete_task" then delete_task_call p st ctx
  else if name == "update_task" then update_task_call p st ctx
  else .exn (("Tool \x27") ++ name ++ ("\x27 not found in MCP server"))

/-- The closed error-code taxonomy appearing in the handlers
    (`TOOL_ERROR` is the `create_error_result` default). -/
def error_taxonomy : List String :=
  [("MISSING_IDENTIFIER"), ("TASK_NOT_FOUND"), ("AMBIGUOUS_MATCH"), ("VALIDATION_ERROR"),
   ("DATABASE_ERROR"), ("INVALID_TITLE"), ("NO_UPDATES"), ("INVALID_FILTER"), ("TOOL_ERROR")]

/-- Well-formedness of an envelope a handler returns: a success carries
    no error_code and does carry data; a failure carries an error_code
    from the closed taxonomy. -/
def env_wf (e : Envelope) : Prop :=
  (e.success = true → e.errorCode = Option.none ∧ e.data ≠ Option.none)
  ∧ (e.success = false → ∃ c, e.errorCode = some c ∧ c ∈ error_taxonomy)

/- ---------- orchestrator ---------- -/

/-- A JSON field of a model-produced tool-call object, possibly of the
    wrong shape. -/
inductive TCField where
  | str (s : String)
  | int (n : Int)
  | dict (p : Params)
  | absent
deriving DecidableEq, Repr

/-- A model-produced tool-call object with `name` and `parameters`
    slots (`absent` models a missing key). -/
structure RawToolCall where
  name : TCField
  parameters : TCField
deriving DecidableEq, Repr

/-- A model-produced tool-call request; it may fail to even be a dict. -/
inductive ToolCallMsg where
  | notDict
  | obj (o : RawToolCall)
deriving DecidableEq, Repr

/-- `CohereClient.validate_tool_call` (cohere_client.py lines 142-164):
    the value is a dict whose `name` is a string and whose `parameters`
    is a dict. -/
def validate_tool_call : ToolCallMsg → Bool
  | .notDict => false
  | .obj o =>
    (match o.name with | .str _ => true | _ => false)
      && (match o.parameters with | .dict _ => true | _ => false)

/-- The `name` of a structurally valid tool call. -/
def tcName : ToolCallMsg → String
  | .obj { name := .str s, parameters := _ } => s
  | _ => ""

/-- The `parameters` of a structurally valid tool call. -/
def tcParams : ToolCallMsg → Params
  | .obj { name := _, parameters := .dict p } => p
  | _ => []

/-- The dict the orchestrator builds when tool execution raises
    (orchestrator.py lines 91-97): only `success` and `message` keys. -/
def orchestrator_failure_envelope (m : String) : Envelope :=
  { success := false, message := ("Tool execution failed: ") ++ m,
    errorCode := Option.none, data := Option.none }

/-- One iteration of the orchestrator's tool loop (orchestrator.py lines
    71-97): skip a structurally invalid call, else inject the
    authenticated `user_id` and execute, converting an escaping
    exception into a failure dict. -/
def process_call (uid : Int) (st : Store) (ctx : Ctx) (tc : ToolCallMsg) :
    Option (String × Envelope) × Store × Ctx :=
  if validate_tool_call tc then
    let name := tcName tc
    let p := setParam (tcParams tc) ("user_id") (.int uid)
    match execute_tool name p st ctx with
    | .ok env st' ctx' => (some (name, env), st', ctx')
    | .exn m => (some (name, orchestrator_failure_envelope m), st, ctx)
  else (Option.none, st, ctx)

/-- The whole tool loop, in received order. -/
def exec_calls (uid : Int) : List ToolCallMsg → Store → Ctx →
    List (String × Envelope) × Store × Ctx
  | [], st, ctx => ([], st, ctx)
  | tc :: rest, st, ctx =>
    let step := process_call uid st ctx tc
    let tail := exec_calls uid rest step.2.1 step.2.2
    ((match step.1 with | some r => r :: tail.1 | Option.none => tail.1), tail.2.1, tail.2.2)

/-- A conversation turn sent to the gateway. -/
structure ChatMsg where
  role : String
  content : String
deriving DecidableEq, Repr

/-- The parsed result of one successful gateway chat call. -/
structure ModelResponse where
  response : String
  tool_calls : List ToolCallMsg
deriving DecidableEq, Repr

/-- The logical outcome of one gateway chat call (after the retry
    wrapper): a parsed response, or a raised exception. -/
inductive ChatOutcome where
  | succ (r : ModelResponse)
  | fail (e : String)
deriving DecidableEq, Repr

/-- A gateway request as actually issued: the message list and whether a
    tool catalogue was passed (`tools=None` disables tools). -/
structure ChatRequest where
  messages : List ChatMsg
  withTools : Bool
deriving DecidableEq, Repr

/-- The line built for one tool outcome:
    `Tool {name}: {message}` (every produced result dict carries a
    `message` key, so the `.get` default never fires). -/
def outcome_line (r : String × Envelope) : String :=
  ("Tool ") ++ r.1 ++ (": ") ++ r.2.message

/-- `tool_context` (orchestrator.py lines 138-141). -/
def tool_context (results : List (String × Envelope)) : String :=
  String.intercalate ("\n") (results.map outcome_line)

def synth_prompt (tctx : String) : String :=
  ("Tool execution results:\n") ++ tctx
    ++ ("\n\nProvide a natural language response to the user based on these results.")

/-- `follow_up_messages` (orchestrator.py lines 144-147). -/
def follow_up_messages (messages : List ChatMsg) (initial : String) (tctx : String) :
    List ChatMsg :=
  messages ++ [⟨("assistant"), initial⟩, ⟨("user"), synth_prompt tctx⟩]

/-- What `AgentOrchestrator.run` produces when it returns normally,
    together with the final store/context and the trace of gateway
    requests actually issued. -/
structure RunResult where
  response : String
  tool_results : List (String × Envelope)
  store : Store
  ctx : Ctx
  trace : List ChatRequest
deriving DecidableEq, Repr

/-- `AgentOrchestrator.run` (orchestrator.py lines 31-114) with the
    gateway modelled as a script of logical chat outcomes consumed one
    per call. A failing first call re-raises (`Except.error`); failures
    of the synthesis call are absorbed into the deterministic fallback. -/
def orchestrator_run (script : List ChatOutcome) (messages : List ChatMsg)
    (uid : Int) (st : Store) (ctx : Ctx) : Except String RunResult :=
  match script with
  | [] => Except.error ("gateway produced no outcome")
  | first :: rest =>
    let req1 : ChatRequest := ⟨messages, true⟩
    match first with
    | .fail e => Except.error e
    | .succ r =>
      if r.tool_calls.isEmpty then
        Except.ok ⟨r.response, [], st, ctx, [req1]⟩
      else
        let ex := exec_calls uid r.tool_calls st ctx
        if ex.1.isEmpty then
          Except.ok ⟨r.response, ex.1, ex.2.1, ex.2.2, [req1]⟩
        else
          let tctx := tool_context ex.1
          let req2 : ChatRequest := ⟨follow_up_messages messages r.response tctx, false⟩
          match rest.head? with
          | some (.succ r2) => Except.ok ⟨r2.response, ex.1, ex.2.1, ex.2.2, [req1, req2]⟩
          | some (.fail _) =>
            Except.ok ⟨("Operation completed. ") ++ tctx, ex.1, ex.2.1, ex.2.2, [req1, req2]⟩
          | Option.none =>
            Except.ok ⟨("Operation completed. ") ++ tctx, ex.1, ex.2.1, ex.2.2, [req1, req2]⟩

/- ---------- gateway retry wrapper ---------- -/

/-- Exceptions a raw Cohere API attempt can raise. -/
inductive ChatErr where
  | rateLimit (s : String)
  | unavailable (s : String)
  | other (s : String)
deriving DecidableEq, Repr

/-- `retry_if_exception_type((TooManyRequestsError, ServiceUnavailableError))`. -/
def is_transient : ChatErr → Bool
  | .rateLimit _ => true
  | .unavailable _ => true
  | .other _ => false

/-- tenacity `wait_exponential`: `multiplier * exp_base^(attempt-1)`
    clamped into `[min, max]`. -/
def wait_exponential (multiplier minW maxW expBase : Nat) (attempt : Nat) : Nat :=
  max (max 0 minW) (min (multiplier * expBase ^ (attempt - 1)) maxW)

/-- The wait configured on `CohereClient.chat`:
    `wait_exponential(multiplier=1, min=2, max=10)`. -/
def chat_wait (attempt : Nat) : Nat := wait_exponential 1 2 10 2 attempt

/-- How `CohereClient.chat` terminates: a successful attempt's result, an
    immediately propagated non-transient error, or retry exhaustion after
    `stop_after_attempt(3)`. `attempts` counts raw attempts made and
    `waits` the backoff sleeps between them. -/
inductive RetryOutcome where
  | ok (r : ModelResponse) (attempts : Nat) (waits : List Nat)
  | errored (e : ChatErr) (attempts : Nat) (waits : List Nat)
  | exhausted (e : ChatErr) (attempts : Nat) (waits : List Nat)
deriving DecidableEq, Repr

/-- The tenacity driver loop; `attempts n` is the outcome of the n-th raw
    API attempt (1-based). The fuel argument only bounds recursion and is
    always at least the remaining allowed attempts. -/
def retry_go (attempts : Nat → Except ChatErr ModelResponse) :
    Nat → Nat → List Nat → RetryOutcome
  | 0, n, waits => .exhausted (.other ("no attempt")) n waits
  | fuel + 1, n, waits =>
    match attempts n with
    | .ok r => .ok r n waits
    | .error e =>
      if is_transient e then
        if n < 3 then retry_go attempts fuel (n + 1) (waits ++ [chat_wait n])
        else .exhausted e n waits
      else .errored e n waits

/-- `CohereClient.chat` as wrapped by
    `@retry(stop=stop_after_attempt(3), wait=wait_exponential(...), ...)`. -/
def chat_with_retry (attempts : Nat → Except ChatErr ModelResponse) : RetryOutcome :=
  retry_go attempts 3 1 []

/- ---------- conversation service ---------- -/

/-- A row of the `messages` table. -/
structure MessageRec where
  id : Int
  conversation_id : Int
  user_id : Int
  role : String
  content : String
  created_at : Int
deriving DecidableEq, Repr

/-- `ConversationService.load_conversation_history` (conversation_service.py
    lines 107-130): rows of the conversation ordered by `created_at`
    ascending, then LIMIT. -/
def load_conversation_history (db : List MessageRec) (cid : Int) (limit : Nat) :
    List MessageRec :=
  (List.insertionSort (fun a b => a.created_at ≤ b.created_at)
      (db.filter (fun m => m.conversation_id == cid))).take limit

/-- The same call at its default `limit: int = 50`. -/
def load_conversation_history_default (db : List MessageRec) (cid : Int) : List MessageRec :=
  load_conversation_history db cid 50

/- ---------- declared parameter schemas ---------- -/

/-- One declared parameter in a registered tool schema. -/
structure ParamSpec where
  pname : String
  ptype : String
  required : Bool
deriving DecidableEq, Repr

/-- Does a scalar value have a declared schema type? -/
def pv_has_type : PyVal → String → Bool
  | .int _, ty => ty == "integer"
  | .str _, ty => ty == "string"
  | .bool _, ty => ty == "boolean"
  | .none, _ => false

/-- The parameter schema `AddTaskTool.parameters` declares. -/
def add_task_schema : List ParamSpec :=
  [⟨("user_id"), ("integer"), true⟩, ⟨("title"), ("string"), true⟩,
   ⟨("description"), ("string"), false⟩]

/-- Validation of an argument mapping against a registered parameter
    schema, following the spec's words ("validate against the registered
    schema"): every required declared parameter is present, and every
    supplied declared parameter has its declared type. This definition
    states what the spec claims is checked before dispatch; it is to be
    compared with `validate_tool_call`, the check the code actually
    performs. -/
def spec_schema_valid (schema : List ParamSpec) (p : Params) : Bool :=
  schema.all (fun s =>
    match getParam p s.pname with
    | Option.none => !s.required
    | some v => pv_has_type v s.ptype)

/-- Number of raw attempts a retry outcome reports. -/
def retry_attempts : RetryOutcome → Nat
  | .ok _ n _ => n
  | .errored _ n _ => n
  | .exhausted _ n _ => n

/-- Backoff sleeps a retry outcome reports. -/
def retry_waits : RetryOutcome → List Nat
  | .ok _ _ w => w
  | .errored _ _ w => w
  | .exhausted _ _ w => w

/- ---------- concrete scenario used as a witness ---------- -/

/-- A structurally valid add_task request. -/
def c3_callA : ToolCallMsg :=
  .obj ⟨.str ("add_task"), .dict [(("title"), PyVal.str ("x"))]⟩

/-- A structurally valid request naming an unregistered tool. -/
def c3_callB : ToolCallMsg := .obj ⟨.str ("bogus"), .dict []⟩

/-- The outcomes the two requests above produce on an empty store for
    identity 1 with fresh id 1 and clock 0. -/
def c3_results : List (String × Envelope) :=
  [(("add_task"), create_success_result (("Task \x27x\x27 created successfully"))
      [(("task_id"), DVal.int 1), (("title"), DVal.str ("x")),
       (("description"), DVal.str ("")), (("completed"), DVal.bool false),
       (("created_at"), DVal.str ("0"))]),
   (("bogus"), orchestrator_failure_envelope (("Tool \x27bogus\x27 not found in MCP server")))]

/- ---------- helper lemmas ---------- -/

theorem find?_dropParam (p : Params) (k : String) :
    (dropParam p k).find? (fun kv => kv.1 == k) = Option.none := by
  induction p with
  | nil => simp [dropParam]
  | cons kv rest ih =>
    simp only [dropParam, List.filter_cons] at ih ⊢
    by_cases h : kv.1 = k
    · simp [h, ih]
    · simp [h, List.find?_cons, ih]

theorem getParam_setParam (p : Params) (k : String) (v : PyVal) :
    getParam (setParam p k v) k = some v := by
  simp [getParam, setParam, List.find?_append, find?_dropParam]

/-- Cross-user and nonexistent lookups both come back empty from
    `validate_task_ownership`. -/
theorem ownership_none (st : Store) (m A : Int)
    (h : ∀ t ∈ st, t.id = m → t.user_id ≠ A) :
    validate_task_ownership st (.int m) A = Option.none := by
  unfold validate_task_ownership
  have hfil : st.filter (fun t => pvMatchesId (.int m) t.id && t.user_id == A) = [] := by
    rw [List.filter_eq_nil_iff]
    intro t ht
    simp only [pvMatchesId, Bool.and_eq_true, beq_iff_eq, not_and]
    intro hid
    exact h t ht hid.symm
  rw [hfil]
  rfl

theorem find_task_id_failed (st : Store) (uid : Int) (m : Int) (ttV : PyVal) (msg : String)
    (hm : m ≠ 0) (hnone : validate_task_ownership st (.int m) uid = Option.none) :
    find_task st uid (.int m) ttV msg
      = .failed (create_error_result ("Task not found or access denied") ("VALIDATION_ERROR")) := by
  simp [find_task, py_truthy, hm, hnone]

/-- complete_task, invoked by id, when the id resolves to no row owned by
    the caller: a single failure outcome independent of id and store. -/
theorem complete_task_cross (A : Int) (ttV : PyVal) :
    ∃ env : Envelope, env.success = false ∧
      ∀ (m : Int) (st : Store), m ≠ 0 →
        validate_task_ownership st (.int m) A = Option.none →
        complete_task_run (.int A) (.int m) ttV st = (env, st) := by
  by_cases hA : A ≤ 0
  · exact ⟨create_error_result ("Invalid user_id") ("VALIDATION_ERROR"), rfl,
      fun m st _ _ => by simp [complete_task_run, uid_check, hA]⟩
  · refine ⟨create_error_result ("Task not found or access denied") ("VALIDATION_ERROR"),
      rfl, fun m st hm hnone => ?_⟩
    have hf := find_task_id_failed st A m ttV
      ("Task not found. Use \x27show tasks\x27 to see your list") hm hnone
    simp [complete_task_run, uid_check, hA, py_truthy, hm, hf]

/-- delete_task analogue of `complete_task_cross`. -/
theorem delete_task_cross (A : Int) (ttV : PyVal) :
    ∃ env : Envelope, env.success = false ∧
      ∀ (m : Int) (st : Store), m ≠ 0 →
        validate_task_ownership st (.int m) A = Option.none →
        delete_task_run (.int A) (.int m) ttV st = (env, st) := by
  by_cases hA : A ≤ 0
  · exact ⟨create_error_result ("Invalid user_id") ("VALIDATION_ERROR"), rfl,
      fun m st _ _ => by simp [delete_task_run, uid_check, hA]⟩
  · refine ⟨create_error_result ("Task not found or access denied") ("VALIDATION_ERROR"),
      rfl, fun m st hm hnone => ?_⟩
    have hf := find_task_id_failed st A m ttV ("Task not found") hm hnone
    simp [delete_task_run, uid_check, hA, py_truthy, hm, hf]

theorem update_title_precheck_failed (newTitleV : PyVal) (env : Envelope)
    (h : update_title_precheck newTitleV = some env) : env.success = false := by
  unfold update_title_precheck at h
  split at h
  · split at h
    · split at h
      · cases h; rfl
      · cases h
    · cases h; rfl
  · cases h

/-- update_task analogue of `complete_task_cross`; the pre-find argument
    checks do not consult the store or the id. -/
theorem update_task_cross (A : Int) (ttV newTitleV newDescV : PyVal) :
    ∃ env : Envelope, env.success = false ∧
      ∀ (m : Int) (st : Store), m ≠ 0 →
        validate_task_ownership st (.int m) A = Option.none →
        update_task_run (.int A) (.int m) ttV newTitleV newDescV st = (env, st) := by
  by_cases hA : A ≤ 0
  · exact ⟨create_error_result ("Invalid user_id") ("VALIDATION_ERROR"), rfl,
      fun m st _ _ => by simp [update_task_run, uid_check, hA]⟩
  by_cases hupd : (!py_truthy newTitleV && newDescV == PyVal.none) = true
  · refine ⟨create_error_result ("Please specify what you\x27d like to update") ("NO_UPDATES"),
      rfl, fun m st hm _ => ?_⟩
    have hmt : py_truthy (PyVal.int m) = true := by simp [py_truthy, hm]
    simp [update_task_run, uid_check, hA, hmt, hupd]
  cases hpre : update_title_precheck newTitleV with
  | some env =>
    refine ⟨env, update_title_precheck_failed newTitleV env hpre, fun m st hm _ => ?_⟩
    have hmt : py_truthy (PyVal.int m) = true := by simp [py_truthy, hm]
    simp [update_task_run, uid_check, hA, hmt, hupd, hpre]
  | none =>
    refine ⟨create_error_result ("Task not found or access denied") ("VALIDATION_ERROR"),
      rfl, fun m st hm hnone => ?_⟩
    have hf := find_task_id_failed st A m ttV
      ("Task not found. Use \x27show tasks\x27 to see your list") hm hnone
    have hmt : py_truthy (PyVal.int m) = true := by simp [py_truthy, hm]
    simp [update_task_run, uid_check, hA, hmt, hupd, hpre, hf]

theorem env_wf_success (m : String) (d : EnvData) : env_wf (create_success_result m d) := by
  unfold env_wf
  exact ⟨fun _ => ⟨rfl, by simp [create_success_result]⟩, fun h => nomatch h⟩

theorem env_wf_error (m c : String) (hc : c ∈ error_taxonomy) :
    env_wf (create_error_result m c) := by
  unfold env_wf
  exact ⟨fun h => absurd h (by simp [create_error_result]), fun _ => ⟨c, rfl, hc⟩⟩

theorem find_task_failed_wf (st : Store) (uid : Int) (tidV ttV : PyVal) (msg : String)
    (env : Envelope) (h : find_task st uid tidV ttV msg = .failed env) : env_wf env := by
  unfold find_task at h
  by_cases hp : py_truthy tidV = true
  · rw [if_pos hp] at h
    cases hv : validate_task_ownership st tidV uid with
    | some t => rw [hv] at h; cases h
    | none =>
      rw [hv] at h
      cases h
      refine env_wf_error _ _ ?_ <;> decide
  · rw [if_neg hp] at h
    rcases hl : find_by_title st uid ttV with _ | ⟨t, _ | ⟨t2, ts⟩⟩ <;> rw [hl] at h
    · cases h; refine env_wf_error _ _ ?_ <;> decide
    · cases h
    · cases h; refine env_wf_error _ _ ?_ <;> decide

theorem complete_found_wf (t : Task) (st : Store) : env_wf (complete_found t st).1 := by
  unfold complete_found
  split
  · exact env_wf_success _ _
  · exact env_wf_success _ _

theorem complete_task_run_wf (u tid tt : PyVal) (st : Store) :
    env_wf (complete_task_run u tid tt st).1 := by
  unfold complete_task_run
  split
  · refine env_wf_error _ _ ?_ <;> decide
  · refine env_wf_error _ _ ?_ <;> decide
  · split
    · refine env_wf_error _ _ ?_ <;> decide
    · split
      · next env heq => exact find_task_failed_wf _ _ _ _ _ env heq
      · next t heq => exact complete_found_wf t st

theorem delete_task_run_wf (u tid tt : PyVal) (st : Store) :
    env_wf (delete_task_run u tid tt st).1 := by
  unfold delete_task_run
  split
  · refine env_wf_error _ _ ?_ <;> decide
  · refine env_wf_error _ _ ?_ <;> decide
  · split
    · refine env_wf_error _ _ ?_ <;> decide
    · split
      · next env heq => exact find_task_failed_wf _ _ _ _ _ env heq
      · exact env_wf_success _ _

theorem update_title_precheck_wf (nt : PyVal) (env : Envelope)
    (h : update_title_precheck nt = some env) : env_wf env := by
  unfold update_title_precheck at h
  split at h
  · split at h
    · split at h
      · cases h; refine env_wf_error _ _ ?_ <;> decide
      · cases h
    · cases h; refine env_wf_error _ _ ?_ <;> decide
  · cases h

theorem update_task_run_wf (u tid tt nt nd : PyVal) (st : Store) :
    env_wf (update_task_run u tid tt nt nd st).1 := by
  unfold update_task_run
  split
  · refine env_wf_error _ _ ?_ <;> decide
  · refine env_wf_error _ _ ?_ <;> decide
  · split
    · refine env_wf_error _ _ ?_ <;> decide
    · split
      · refine env_wf_error _ _ ?_ <;> decide
      · split
        · next env heq => exact update_title_precheck_wf nt env heq
        · split
          · next env heq => exact find_task_failed_wf _ _ _ _ _ env heq
          · next t heq =>
            split
            · exact env_wf_success _ _
            · exact env_wf_success _ _
            · refine env_wf_error _ _ ?_ <;> decide

theorem add_task_run_wf (u t d : PyVal) (st : Store) (ctx : Ctx) :
    env_wf (add_task_run u t d st ctx).1 := by
  unfold add_task_run
  split
  · refine env_wf_error _ _ ?_ <;> decide
  · refine env_wf_error _ _ ?_ <;> decide
  · split
    · refine env_wf_error _ _ ?_ <;> decide
    · split
      · split
        · refine env_wf_error _ _ ?_ <;> decide
        · split
          · refine env_wf_error _ _ ?_ <;> decide
          · exact env_wf_success _ _
      · refine env_wf_error _ _ ?_ <;> decide

theorem list_tasks_run_wf (u fv lv : PyVal) (st : Store) :
    env_wf (list_tasks_run u fv lv st).1 := by
  unfold list_tasks_run
  split
  · refine env_wf_error _ _ ?_ <;> decide
  · refine env_wf_error _ _ ?_ <;> decide
  · split
    · split
      · split
        · refine env_wf_error _ _ ?_ <;> decide
        · exact env_wf_success _ _
      · refine env_wf_error _ _ ?_ <;> decide
    · refine env_wf_error _ _ ?_ <;> decide

/-- The store is never modified by a list_tasks invocation, whatever the
    arguments. -/
theorem list_tasks_run_store (u fv lv : PyVal) (st : Store) :
    (list_tasks_run u fv lv st).2 = st := by
  unfold list_tasks_run
  repeat' split
  all_goals rfl

theorem execute_tool_ok_wf (name : String) (p : Params) (st : Store) (ctx : Ctx)
    (env : Envelope) (st' : Store) (ctx' : Ctx)
    (h : execute_tool name p st ctx = .ok env st' ctx') : env_wf env := by
  unfold execute_tool at h
  split at h
  · unfold add_task_call at h
    split at h
    · cases h; exact add_task_run_wf _ _ _ _ _
    · cases h
  · split at h
    · unfold list_tasks_call at h
      split at h
      · cases h; exact list_tasks_run_wf _ _ _ _
      · cases h
    · split at h
      · unfold complete_task_call at h
        split at h
        · cases h; exact complete_task_run_wf _ _ _ _
        · cases h
      · split at h
        · unfold delete_task_call at h
          split at h
          · cases h; exact delete_task_run_wf _ _ _ _
          · cases h
        · split at h
          · unfold update_task_call at h
            split at h
            · cases h; exact update_task_run_wf _ _ _ _ _ _
            · cases h
          · cases h

/- ---------- claim theorems ---------- -/

/-- Claim C1: for identities A ≠ B and a task of B's, each mutating tool
    (complete_task, delete_task, update_task) invoked by A with that
    task's id returns exactly the same failure outcome as with an id
    existing for no one, and the store (hence B's task) is unchanged.
    Hypotheses: the id being positive-like (nonzero, as autoincrement ids
    are) keeps Python truthiness on the id path, every row with B's
    task's id belongs to B, and the comparison id belongs to no row. -/
theorem cross_user_failure_indistinguishable
    (A B : Int) (st : Store) (tB : Task) (n : Int) (ttV newTitleV newDescV : PyVal)
    (hAB : A ≠ B) (hmem : tB ∈ st) (hown : tB.user_id = B)
    (hidB : ∀ t ∈ st, t.id = tB.id → t.user_id = B)
    (htid : tB.id ≠ 0) (hn : n ≠ 0) (hfresh : ∀ t ∈ st, t.id ≠ n) :
    (complete_task_run (.int A) (.int tB.id) ttV st
        = complete_task_run (.int A) (.int n) ttV st
      ∧ (complete_task_run (.int A) (.int tB.id) ttV st).2 = st
      ∧ (complete_task_run (.int A) (.int tB.id) ttV st).1.success = false)
    ∧ (delete_task_run (.int A) (.int tB.id) ttV st
        = delete_task_run (.int A) (.int n) ttV st
      ∧ (delete_task_run (.int A) (.int tB.id) ttV st).2 = st
      ∧ (delete_task_run (.int A) (.int tB.id) ttV st).1.success = false)
    ∧ (update_task_run (.int A) (.int tB.id) ttV newTitleV newDescV st
        = update_task_run (.int A) (.int n) ttV newTitleV newDescV st
      ∧ (update_task_run (.int A) (.int tB.id) ttV newTitleV newDescV st).2 = st
      ∧ (update_task_run (.int A) (.int tB.id) ttV newTitleV newDescV st).1.success = false) := by
  have h1 : validate_task_ownership st (.int tB.id) A = Option.none :=
    ownership_none st tB.id A (fun t ht hid => by rw [hidB t ht hid]; exact Ne.symm hAB)
  have h2 : validate_task_ownership st (.int n) A = Option.none :=
    ownership_none st n A (fun t ht hid => absurd hid (hfresh t ht))
  obtain ⟨envC, hCf, hC⟩ := complete_task_cross A ttV
  obtain ⟨envD, hDf, hD⟩ := delete_task_cross A ttV
  obtain ⟨envU, hUf, hU⟩ := update_task_cross A ttV newTitleV newDescV
  refine ⟨⟨?_, ?_, ?_⟩, ⟨?_, ?_, ?_⟩, ⟨?_, ?_, ?_⟩⟩
  · rw [hC tB.id st htid h1, hC n st hn h2]
  · rw [hC tB.id st htid h1]
  · rw [hC tB.id st htid h1]; exact hCf
  · rw [hD tB.id st htid h1, hD n st hn h2]
  · rw [hD tB.id st htid h1]
  · rw [hD tB.id st htid h1]; exact hDf
  · rw [hU tB.id st htid h1, hU n st hn h2]
  · rw [hU tB.id st htid h1]
  · rw [hU tB.id st htid h1]; exact hUf

/-- Witness for C1 at a concrete two-user store. -/
theorem cross_user_failure_indistinguishable_witness :
    (1 : Int) ≠ 2
    ∧ (complete_task_run (.int 1) (.int 5) PyVal.none
          [⟨5, 2, ("Buy milk"), (""), false, 0, 0⟩]
        = complete_task_run (.int 1) (.int 99) PyVal.none
          [⟨5, 2, ("Buy milk"), (""), false, 0, 0⟩]
      ∧ (complete_task_run (.int 1) (.int 5) PyVal.none
          [⟨5, 2, ("Buy milk"), (""), false, 0, 0⟩]).2
        = [⟨5, 2, ("Buy milk"), (""), false, 0, 0⟩]
      ∧ (complete_task_run (.int 1) (.int 5) PyVal.none
          [⟨5, 2, ("Buy milk"), (""), false, 0, 0⟩]).1.success = false) :=
  ⟨by decide,
   (cross_user_failure_indistinguishable 1 2 [⟨5, 2, ("Buy milk"), (""), false, 0, 0⟩]
      ⟨5, 2, ("Buy milk"), (""), false, 0, 0⟩ 99 PyVal.none PyVal.none PyVal.none
      (by decide) (by decide) (by decide) (by decide) (by decide) (by decide)
      (by decide)).1⟩

/-- Claim C2: after structural validation the orchestrator overwrites the
    `user_id` argument with the authenticated identity, so two model
    argument mappings differing only at `user_id` produce the same
    injected mapping, the same executed invocation and the same result. -/
theorem user_id_override_determines_invocation
    (uid : Int) (st : Store) (ctx : Ctx) (name : String) (p1 p2 : Params)
    (h : dropParam p1 ("user_id") = dropParam p2 ("user_id")) :
    setParam p1 ("user_id") (.int uid) = setParam p2 ("user_id") (.int uid)
    ∧ getParam (setParam p1 ("user_id") (.int uid)) ("user_id") = some (.int uid)
    ∧ process_call uid st ctx (.obj ⟨.str name, .dict p1⟩)
        = process_call uid st ctx (.obj ⟨.str name, .dict p2⟩) := by
  have hset : setParam p1 ("user_id") (.int uid) = setParam p2 ("user_id") (.int uid) := by
    simp [setParam, h]
  refine ⟨hset, getParam_setParam p1 ("user_id") (.int uid), ?_⟩
  simp only [process_call, validate_tool_call, tcName, tcParams, hset]

/-- Witness for C2: mappings claiming user 999 and user 5 behave
    identically once identity 1 is injected. -/
theorem user_id_override_determines_invocation_witness :
    dropParam [(("user_id"), PyVal.int 999), (("title"), PyVal.str ("x"))] ("user_id")
      = dropParam [(("user_id"), PyVal.int 5), (("title"), PyVal.str ("x"))] ("user_id")
    ∧ (setParam [(("user_id"), PyVal.int 999), (("title"), PyVal.str ("x"))]
          ("user_id") (.int 1)
        = setParam [(("user_id"), PyVal.int 5), (("title"), PyVal.str ("x"))]
          ("user_id") (.int 1)
      ∧ getParam (setParam [(("user_id"), PyVal.int 999), (("title"), PyVal.str ("x"))]
          ("user_id") (.int 1)) ("user_id") = some (.int 1)
      ∧ process_call 1 [] ⟨1, 0⟩
          (.obj ⟨.str ("add_task"), .dict [(("user_id"), PyVal.int 999), (("title"), PyVal.str ("x"))]⟩)
        = process_call 1 [] ⟨1, 0⟩
          (.obj ⟨.str ("add_task"), .dict [(("user_id"), PyVal.int 5), (("title"), PyVal.str ("x"))]⟩)) :=
  ⟨by decide,
   user_id_override_determines_invocation 1 [] ⟨1, 0⟩ ("add_task")
     [(("user_id"), PyVal.int 999), (("title"), PyVal.str ("x"))]
     [(("user_id"), PyVal.int 5), (("title"), PyVal.str ("x"))] (by decide)⟩

/-- Claim C7: a model response with no tool calls makes the whole run one
    single gateway call, executes no tool, leaves the store untouched and
    returns the response text verbatim. -/
theorem no_tool_calls_single_call
    (r : ModelResponse) (rest : List ChatOutcome) (messages : List ChatMsg)
    (uid : Int) (st : Store) (ctx : Ctx) (hnt : r.tool_calls = []) :
    orchestrator_run (.succ r :: rest) messages uid st ctx
      = Except.ok ⟨r.response, [], st, ctx, [⟨messages, true⟩]⟩ := by
  simp [orchestrator_run, hnt]

/-- Witness for C7. -/
theorem no_tool_calls_single_call_witness :
    orchestrator_run [.succ ⟨("hello"), []⟩] [⟨("user"), ("hi")⟩] 1 [] ⟨1, 0⟩
      = Except.ok ⟨("hello"), [], [], ⟨1, 0⟩, [⟨[⟨("user"), ("hi")⟩], true⟩]⟩ :=
  no_tool_calls_single_call ⟨("hello"), []⟩ [] [⟨("user"), ("hi")⟩] 1 [] ⟨1, 0⟩ rfl

/-- Claim C5 (amended): the orchestrator's pre-dispatch check is the
    generic structural one, and a tool call failing it is skipped with no
    dispatch, no recorded outcome and no store change. -/
theorem structural_validation_no_side_effects
    (uid : Int) (st : Store) (ctx : Ctx) (tc : ToolCallMsg)
    (h : validate_tool_call tc = false) :
    process_call uid st ctx tc = (Option.none, st, ctx) := by
  simp [process_call, h]

/-- Witness for the amended C5: a call whose name is not a string is
    skipped without side effects. -/
theorem structural_validation_no_side_effects_witness :
    process_call 1 [⟨5, 1, ("a"), (""), false, 0, 0⟩] ⟨9, 3⟩ (.obj ⟨.int 3, .dict []⟩)
      = (Option.none, [⟨5, 1, ("a"), (""), false, 0, 0⟩], ⟨9, 3⟩) :=
  structural_validation_no_side_effects 1 [⟨5, 1, ("a"), (""), false, 0, 0⟩] ⟨9, 3⟩
    (.obj ⟨.int 3, .dict []⟩) (by decide)

/-- Counterexample to C5 as stated: an add_task call whose `description`
    violates the registered schema (boolean instead of string) passes the
    code's structural check, is dispatched, and creates a task — an
    observable store change from a schema-invalid call. -/
theorem schema_invalid_call_reaches_store :
    spec_schema_valid add_task_schema
        [(("title"), PyVal.str ("buy milk")), (("description"), PyVal.bool false)] = false
    ∧ spec_schema_valid add_task_schema
        (setParam [(("title"), PyVal.str ("buy milk")), (("description"), PyVal.bool false)]
          ("user_id") (PyVal.int 1)) = false
    ∧ validate_tool_call (.obj ⟨.str ("add_task"),
        .dict [(("title"), PyVal.str ("buy milk")), (("description"), PyVal.bool false)]⟩) = true
    ∧ (orchestrator_run
         [.succ ⟨("Adding"), [.obj ⟨.str ("add_task"),
            .dict [(("title"), PyVal.str ("buy milk")), (("description"), PyVal.bool false)]⟩]⟩,
          .succ ⟨("Done"), []⟩] [] 1 [] ⟨1, 0⟩).toOption.map (fun res => res.store)
        = some [⟨1, 1, ("buy milk"), (""), false, 0, 0⟩] := by
  refine ⟨by decide, by decide, by decide, by decide⟩

/-- Claim C4 (amended): tool executions always yield envelopes and no
    handler exception escapes the loop; envelopes returned by handlers
    are success envelopes without error_code or failure envelopes with a
    taxonomy error_code, while exceptions escaping a handler call (an
    unregistered name, an argument-binding error) are converted by the
    orchestrator into a `success:false` envelope with only a message and
    no error_code key. -/
theorem envelope_taxonomy_amended :
    (∀ (name : String) (p : Params) (st : Store) (ctx : Ctx) (env : Envelope)
        (st' : Store) (ctx' : Ctx),
        execute_tool name p st ctx = .ok env st' ctx' → env_wf env)
    ∧ (∀ (uid : Int) (st : Store) (ctx : Ctx) (tc : ToolCallMsg) (m : String),
        validate_tool_call tc = true →
        execute_tool (tcName tc) (setParam (tcParams tc) ("user_id") (.int uid)) st ctx
          = .exn m →
        process_call uid st ctx tc
            = (some (tcName tc, orchestrator_failure_envelope m), st, ctx)
          ∧ (orchestrator_failure_envelope m).success = false
          ∧ (orchestrator_failure_envelope m).errorCode = Option.none
          ∧ (orchestrator_failure_envelope m).message = ("Tool execution failed: ") ++ m) := by
  constructor
  · exact execute_tool_ok_wf
  · intro uid st ctx tc m hv hexn
    refine ⟨?_, rfl, rfl, rfl⟩
    simp [process_call, hv, hexn]

/-- Witness for the amended C4: a handler failure envelope carries a
    taxonomy code; an unknown-tool exception becomes the code-less
    orchestrator envelope. -/
theorem envelope_taxonomy_amended_witness :
    env_wf (create_error_result ("Please specify either a task ID or task title")
      ("MISSING_IDENTIFIER"))
    ∧ process_call 7 [] ⟨1, 0⟩ (.obj ⟨.str ("bogus"), .dict []⟩)
        = (some (("bogus"), orchestrator_failure_envelope
            (("Tool \x27bogus\x27 not found in MCP server"))), [], ⟨1, 0⟩) :=
  ⟨(envelope_taxonomy_amended).1 ("complete_task") [(("user_id"), PyVal.int 1)] [] ⟨1, 0⟩
      (create_error_result ("Please specify either a task ID or task title")
        ("MISSING_IDENTIFIER")) [] ⟨1, 0⟩ (by decide),
   ((envelope_taxonomy_amended).2 7 [] ⟨1, 0⟩ (.obj ⟨.str ("bogus"), .dict []⟩)
      (("Tool \x27bogus\x27 not found in MCP server")) (by decide) (by decide)).1⟩

/-- Counterexample to C4 as stated: the envelope recorded for a tool call
    naming an unregistered tool is a failure that carries no error_code
    key at all (the orchestrator's catch builds only success and
    message). -/
theorem failure_envelope_missing_error_code :
    (orchestrator_run [.succ ⟨("Working"), [.obj ⟨.str ("bogus"), .dict []⟩]⟩, .fail ("down")]
        [] 7 [] ⟨1, 0⟩).toOption.map (fun res => res.tool_results)
      = some [(("bogus"),
          { success := false,
            message := ("Tool execution failed: Tool \x27bogus\x27 not found in MCP server"),
            errorCode := Option.none, data := Option.none })] := by
  decide

theorem exec_calls_names (uid : Int) (tcs : List ToolCallMsg) :
    ∀ (st : Store) (ctx : Ctx),
    (exec_calls uid tcs st ctx).1.map Prod.fst
      = (tcs.filter validate_tool_call).map tcName := by
  induction tcs with
  | nil => intro st ctx; rfl
  | cons tc rest ih =>
    intro st ctx
    by_cases hv : validate_tool_call tc = true
    · cases hexec : execute_tool (tcName tc) (setParam (tcParams tc) ("user_id") (.int uid))
        st ctx
      all_goals simp [exec_calls, process_call, hv, hexec, List.filter_cons, ih]
    · simp [exec_calls, process_call, hv, List.filter_cons, ih]

theorem exec_calls_append (uid : Int) (l1 l2 : List ToolCallMsg) :
    ∀ (st : Store) (ctx : Ctx),
    exec_calls uid (l1 ++ l2) st ctx
      = ((exec_calls uid l1 st ctx).1
           ++ (exec_calls uid l2 (exec_calls uid l1 st ctx).2.1
                 (exec_calls uid l1 st ctx).2.2).1,
         (exec_calls uid l2 (exec_calls uid l1 st ctx).2.1
            (exec_calls uid l1 st ctx).2.2).2) := by
  induction l1 with
  | nil => intro st ctx; rfl
  | cons tc rest ih =>
    intro st ctx
    rcases hstep : process_call uid st ctx tc with ⟨r?, st', ctx'⟩
    simp only [List.cons_append, exec_calls, hstep, ih]
    cases r? <;> simp [ih]

theorem op_completed_ne (s : String) : ("Operation completed. ") ++ s ≠ ("") := by
  intro h
  have hl := congrArg String.length h
  rw [String.length_append] at hl
  have h21 : (("Operation completed. ") : String).length = 21 := rfl
  have h0 : ((("")) : String).length = 0 := rfl
  rw [h21, h0] at hl
  omega

/-- Claim C3: with two or more tool-call requests, each structurally
    valid request contributes exactly one outcome, in received order;
    an earlier batch never affects whether a later batch executes; when
    any outcome exists the synthesis request lists each outcome as a
    `Tool <name>: <message>` line with tools disabled; and when the
    synthesis call fails the terminal response is the deterministic
    non-empty fallback `Operation completed. ` followed by those lines. -/
theorem partial_failure_synthesis_fallback
    (r : ModelResponse) (rest : List ChatOutcome) (messages : List ChatMsg)
    (uid : Int) (st : Store) (ctx : Ctx)
    (h2 : 2 ≤ r.tool_calls.length) :
    ((exec_calls uid r.tool_calls st ctx).1.map Prod.fst
        = (r.tool_calls.filter validate_tool_call).map tcName)
    ∧ (∀ (l1 l2 : List ToolCallMsg) (st0 : Store) (c0 : Ctx),
        exec_calls uid (l1 ++ l2) st0 c0
          = ((exec_calls uid l1 st0 c0).1
               ++ (exec_calls uid l2 (exec_calls uid l1 st0 c0).2.1
                     (exec_calls uid l1 st0 c0).2.2).1,
             (exec_calls uid l2 (exec_calls uid l1 st0 c0).2.1
                (exec_calls uid l1 st0 c0).2.2).2))
    ∧ (∀ (results : List (String × Envelope)) (st' : Store) (ctx' : Ctx),
        exec_calls uid r.tool_calls st ctx = (results, st', ctx') →
        results ≠ [] →
        tool_context results
            = String.intercalate ("\n")
                (results.map (fun o => ("Tool ") ++ o.1 ++ (": ") ++ o.2.message))
          ∧ ∃ resp,
              orchestrator_run (.succ r :: rest) messages uid st ctx
                = Except.ok ⟨resp, results, st', ctx',
                    [⟨messages, true⟩,
                     ⟨follow_up_messages messages r.response (tool_context results), false⟩]⟩
              ∧ ((rest.head? = Option.none ∨ ∃ e, rest.head? = some (.fail e)) →
                  resp = ("Operation completed. ") ++ tool_context results
                  ∧ resp ≠ (""))) := by
  refine ⟨exec_calls_names uid r.tool_calls st ctx,
    fun l1 l2 st0 c0 => exec_calls_append uid l1 l2 st0 c0, ?_⟩
  intro results st' ctx' hex hne
  have hne' : r.tool_calls ≠ [] := by
    intro h
    rw [h] at h2
    simp at h2
  have hempty : r.tool_calls.isEmpty = false := by
    cases hc : r.tool_calls with
    | nil => exact absurd hc hne'
    | cons a l => rfl
  have hrne : results.isEmpty = false := by
    cases hc : results with
    | nil => exact absurd hc hne
    | cons a l => rfl
  refine ⟨rfl, ?_⟩
  rcases hh : rest.head? with _ | o
  · refine ⟨("Operation completed. ") ++ tool_context results, ?_, fun _ => ⟨rfl, ?_⟩⟩
    · simp [orchestrator_run, hempty, hex, hrne, hh]
    · exact op_completed_ne (tool_context results)
  · cases o with
    | succ r2 =>
      refine ⟨r2.response, ?_, ?_⟩
      · simp [orchestrator_run, hempty, hex, hrne, hh]
      · intro hcase
        rcases hcase with hnone | ⟨e, hfail⟩
        · cases hnone
        · cases hfail
    | fail e =>
      refine ⟨("Operation completed. ") ++ tool_context results, ?_, fun _ => ⟨rfl, ?_⟩⟩
      · simp [orchestrator_run, hempty, hex, hrne, hh]
      · exact op_completed_ne (tool_context results)

/-- Witness for C3: one succeeding and one failing call; both outcomes
    are collected and the synthesis failure yields the fallback text. -/
theorem partial_failure_synthesis_fallback_witness :
    (exec_calls 1 [c3_callA, c3_callB] [] ⟨1, 0⟩).1.map Prod.fst
        = [("add_task"), ("bogus")]
    ∧ (orchestrator_run [.succ ⟨("doing"), [c3_callA, c3_callB]⟩, .fail ("nope")]
          [] 1 [] ⟨1, 0⟩).toOption.map (fun res => res.response)
        = some (("Operation completed. ") ++ tool_context c3_results) := by
  obtain ⟨h1, -, h3⟩ := partial_failure_synthesis_fallback ⟨("doing"), [c3_callA, c3_callB]⟩
    [.fail ("nope")] [] 1 [] ⟨1, 0⟩ (by decide)
  have hex : exec_calls 1 [c3_callA, c3_callB] [] ⟨1, 0⟩
      = (c3_results, [⟨1, 1, ("x"), (""), false, 0, 0⟩], ⟨2, 0⟩) := by decide
  obtain ⟨-, resp, heq, himp⟩ := h3 c3_results _ _ hex (by decide)
  obtain ⟨hresp, -⟩ := himp (Or.inr ⟨("nope"), rfl⟩)
  refine ⟨by decide, ?_⟩
  rw [heq]
  simp [Except.toOption, hresp]

theorem retry_go_attempts_le (attempts : Nat → Except ChatErr ModelResponse) :
    ∀ (fuel n : Nat) (waits : List Nat), n ≤ 3 →
      retry_attempts (retry_go attempts fuel n waits) ≤ 3 := by
  intro fuel
  induction fuel with
  | zero => intro n waits hn; simpa [retry_go, retry_attempts] using hn
  | succ fuel ih =>
    intro n waits hn
    cases ha : attempts n with
    | ok r => simpa [retry_go, ha, retry_attempts] using hn
    | error e =>
      by_cases ht : is_transient e = true
      · by_cases hlt : n < 3
        · simpa [retry_go, ha, ht, hlt] using ih (n + 1) (waits ++ [chat_wait n]) (by omega)
        · simpa [retry_go, ha, ht, hlt, retry_attempts] using hn
      · simpa [retry_go, ha, ht, retry_attempts] using hn

theorem chat_wait_bounds (k : Nat) : 2 ≤ chat_wait k ∧ chat_wait k ≤ 10 := by
  unfold chat_wait wait_exponential
  constructor
  · exact le_trans (by decide) (Nat.le_max_left (max 0 2) _)
  · exact Nat.max_le.mpr ⟨by decide, Nat.min_le_right _ _⟩

theorem retry_go_waits_bounds (attempts : Nat → Except ChatErr ModelResponse) :
    ∀ (fuel n : Nat) (waits : List Nat),
      (∀ w ∈ waits, 2 ≤ w ∧ w ≤ 10) →
      ∀ w ∈ retry_waits (retry_go attempts fuel n waits), 2 ≤ w ∧ w ≤ 10 := by
  intro fuel
  induction fuel with
  | zero => intro n waits hw; simpa [retry_go, retry_waits] using hw
  | succ fuel ih =>
    intro n waits hw
    cases ha : attempts n with
    | ok r => simpa [retry_go, ha, retry_waits] using hw
    | error e =>
      by_cases ht : is_transient e = true
      · by_cases hlt : n < 3
        · have hw' : ∀ w ∈ waits ++ [chat_wait n], 2 ≤ w ∧ w ≤ 10 := by
            intro w hmem
            rcases List.mem_append.mp hmem with h | h
            · exact hw w h
            · have he := List.mem_singleton.mp h
              subst he
              exact chat_wait_bounds n
          simpa [retry_go, ha, ht, hlt] using ih (n + 1) (waits ++ [chat_wait n]) hw'
        · simpa [retry_go, ha, ht, hlt, retry_waits] using hw
      · simpa [retry_go, ha, ht, retry_waits] using hw

/-- Claim C6: the gateway chat wrapper retries only rate-limit and
    service-unavailable errors, makes at most 3 raw attempts, sleeps
    between 2 and 10 seconds between attempts, propagates any other
    failure immediately on the first attempt, and a success after
    transient failures surfaces exactly that attempt's result as the one
    logical call. -/
theorem gateway_retry_policy :
    (∀ (attempts : Nat → Except ChatErr ModelResponse) (e : ChatErr),
        attempts 1 = Except.error e → is_transient e = false →
        chat_with_retry attempts = .errored e 1 [])
    ∧ (∀ attempts, retry_attempts (chat_with_retry attempts) ≤ 3)
    ∧ (∀ attempts, ∀ w ∈ retry_waits (chat_with_retry attempts), 2 ≤ w ∧ w ≤ 10)
    ∧ (∀ (attempts : Nat → Except ChatErr ModelResponse) (r : ModelResponse) (n : Nat),
        1 ≤ n → n ≤ 3 →
        (∀ k, 1 ≤ k → k < n → ∃ e, attempts k = Except.error e ∧ is_transient e = true) →
        attempts n = Except.ok r →
        chat_with_retry attempts
          = .ok r n ((List.range (n - 1)).map (fun i => chat_wait (i + 1)))) := by
  refine ⟨?_, ?_, ?_, ?_⟩
  · intro attempts e h1 ht
    simp [chat_with_retry, retry_go, h1, ht]
  · intro attempts
    exact retry_go_attempts_le attempts 3 1 [] (by omega)
  · intro attempts
    exact retry_go_waits_bounds attempts 3 1 [] (by simp)
  · intro attempts r n h1 h3 hprev hok
    have hn : n = 1 ∨ n = 2 ∨ n = 3 := by omega
    rcases hn with rfl | rfl | rfl
    · simp [chat_with_retry, retry_go, hok]
    · obtain ⟨e1, he1, ht1⟩ := hprev 1 (by omega) (by omega)
      simp [chat_with_retry, retry_go, he1, ht1, hok, List.range_succ]
    · obtain ⟨e1, he1, ht1⟩ := hprev 1 (by omega) (by omega)
      obtain ⟨e2, he2, ht2⟩ := hprev 2 (by omega) (by omega)
      simp [chat_with_retry, retry_go, he1, ht1, he2, ht2, hok, List.range_succ]

/-- Witness for C6: two transient failures then success yield the
    attempt-3 result with waits 2 and 2; a non-transient failure
    propagates at once. -/
theorem gateway_retry_policy_witness :
    chat_with_retry (fun k => if k = 1 then Except.error (ChatErr.rateLimit ("rl"))
        else if k = 2 then Except.error (ChatErr.unavailable ("sv"))
        else Except.ok ⟨("ok"), []⟩)
      = .ok ⟨("ok"), []⟩ 3 ((List.range 2).map (fun i => chat_wait (i + 1)))
    ∧ chat_with_retry (fun _ => Except.error (ChatErr.other ("auth")))
      = .errored (ChatErr.other ("auth")) 1 [] := by
  constructor
  · exact (gateway_retry_policy).2.2.2 _ ⟨("ok"), []⟩ 3 (by omega) (by omega)
      (fun k hk1 hk3 => by
        interval_cases k
        · exact ⟨ChatErr.rateLimit ("rl"), rfl, rfl⟩
        · exact ⟨ChatErr.unavailable ("sv"), rfl, rfl⟩) rfl
  · exact (gateway_retry_policy).1 _ (ChatErr.other ("auth")) rfl rfl

/-- In a store whose ids are unique, a filter satisfied by a member task
    and forcing its id returns exactly that task. -/
theorem filter_single (st : Store) (tB : Task) (p : Task → Bool)
    (hmem : tB ∈ st) (hnd : (st.map Task.id).Nodup)
    (hp : p tB = true) (hid : ∀ t ∈ st, p t = true → t.id = tB.id) :
    st.filter p = [tB] := by
  induction st with
  | nil => cases hmem
  | cons a rest ih =>
    rw [List.map_cons, List.nodup_cons] at hnd
    rcases List.mem_cons.mp hmem with heq | hmem'
    · subst heq
      rw [List.filter_cons_of_pos hp]
      have hrest : rest.filter p = [] := by
        rw [List.filter_eq_nil_iff]
        intro t ht hpt
        have hti : t.id = tB.id := hid t (List.mem_cons_of_mem _ ht) hpt
        exact hnd.1 (hti ▸ List.mem_map_of_mem Task.id ht)
      rw [hrest]
    · cases hpa : p a with
      | false =>
        rw [List.filter_cons_of_neg (by simp [hpa])]
        exact ih hmem' hnd.2 (fun t ht hpt => hid t (List.mem_cons_of_mem _ ht) hpt)
      | true =>
        exfalso
        have haid : a.id = tB.id := hid a (List.mem_cons_self a rest) hpa
        have hin : tB.id ∈ rest.map Task.id := List.mem_map_of_mem Task.id hmem'
        rw [← haid] at hin
        exact hnd.1 hin

/-- Claim C9: completing an already-completed task, by id or by an
    unambiguous title match, returns a success envelope whose message
    notes it is already complete and leaves the store unchanged. -/
theorem complete_already_completed_idempotent
    (st : Store) (tB : Task) (pat : String)
    (hmem : tB ∈ st) (hdone : tB.completed = true)
    (hnd : (st.map Task.id).Nodup) (hid0 : tB.id ≠ 0) (huid : 0 < tB.user_id)
    (hpat : pat ≠ (""))
    (hfind : st.filter (fun t => t.user_id == tB.user_id && ilike t.title pat) = [tB]) :
    complete_task_run (.int tB.user_id) (.int tB.id) PyVal.none st
        = (create_success_result
             (("Task \x27") ++ tB.title ++ ("\x27 is already marked as complete"))
             [(("task_id"), DVal.int tB.id), (("title"), DVal.str tB.title),
              (("completed"), DVal.bool true)], st)
    ∧ complete_task_run (.int tB.user_id) PyVal.none (.str pat) st
        = (create_success_result
             (("Task \x27") ++ tB.title ++ ("\x27 is already marked as complete"))
             [(("task_id"), DVal.int tB.id), (("title"), DVal.str tB.title),
              (("completed"), DVal.bool true)], st) := by
  have hA : ¬ tB.user_id ≤ 0 := by omega
  have h0 : py_truthy PyVal.none = false := rfl
  have howns : validate_task_ownership st (.int tB.id) tB.user_id = some tB := by
    unfold validate_task_ownership
    rw [filter_single st tB _ hmem hnd (by simp [pvMatchesId])
      (fun t ht h => by simp [pvMatchesId] at h; exact h.1.symm)]
    rfl
  constructor
  · have hmt : py_truthy (PyVal.int tB.id) = true := by simp [py_truthy, hid0]
    have hft : find_task st tB.user_id (.int tB.id) PyVal.none
        ("Task not found. Use \x27show tasks\x27 to see your list") = .found tB := by
      simp [find_task, hmt, howns]
    simp [complete_task_run, uid_check, hA, hmt, h0, hft, complete_found, hdone]
  · have hpt : py_truthy (PyVal.str pat) = true := by simp [py_truthy, hpat]
    have hfb : find_by_title st tB.user_id (.str pat) = [tB] := by
      simpa [find_by_title, py_fstr] using hfind
    have hft : find_task st tB.user_id PyVal.none (.str pat)
        ("Task not found. Use \x27show tasks\x27 to see your list") = .found tB := by
      simp [find_task, h0, hfb]
    simp [complete_task_run, uid_check, hA, hpt, h0, hft, complete_found, hdone]

/-- Witness for C9 on a one-task store. -/
theorem complete_already_completed_idempotent_witness :
    complete_task_run (.int 1) (.int 5) PyVal.none [⟨5, 1, ("Buy milk"), (""), true, 0, 0⟩]
        = (create_success_result (("Task \x27Buy milk\x27 is already marked as complete"))
             [(("task_id"), DVal.int 5), (("title"), DVal.str ("Buy milk")),
              (("completed"), DVal.bool true)], [⟨5, 1, ("Buy milk"), (""), true, 0, 0⟩])
    ∧ complete_task_run (.int 1) PyVal.none (.str ("milk"))
          [⟨5, 1, ("Buy milk"), (""), true, 0, 0⟩]
        = (create_success_result (("Task \x27Buy milk\x27 is already marked as complete"))
             [(("task_id"), DVal.int 5), (("title"), DVal.str ("Buy milk")),
              (("completed"), DVal.bool true)], [⟨5, 1, ("Buy milk"), (""), true, 0, 0⟩]) :=
  complete_already_completed_idempotent [⟨5, 1, ("Buy milk"), (""), true, 0, 0⟩]
    ⟨5, 1, ("Buy milk"), (""), true, 0, 0⟩ ("milk") (by decide) (by decide) (by decide)
    (by decide) (by decide) (by decide) (by decide)

/-- Claim C10: list_tasks never writes the store; a valid invocation
    returns a success envelope whose `tasks` are exactly the caller's
    tasks passing the filter ordered by creation time descending and cut
    to the limit, with `count` equal to their number; the bound limit
    defaults to 50. -/
theorem list_tasks_read_only_filtered_sorted
    (uid : Int) (f : String) (limit : Nat) (st : Store) (ctx : Ctx)
    (huid : 0 < uid) (hf : f ∈ [("all"), ("pending"), ("completed")]) :
    (∀ (uidV filterV limitV : PyVal) (st0 : Store),
        (list_tasks_run uidV filterV limitV st0).2 = st0)
    ∧ (∃ sel : List Task,
        sel = (tasks_query st uid f).take limit
        ∧ list_tasks_run (.int uid) (.str f) (.int (Int.ofNat limit)) st
            = (create_success_result (list_message f sel.length)
                 [(("tasks"), DVal.tasks (sel.map task_out)),
                  (("count"), DVal.int (Int.ofNat sel.length)), (("filter"), DVal.str f)], st)
        ∧ (∀ t ∈ sel, t.user_id = uid ∧ matches_filter f t = true)
        ∧ sel.Pairwise (fun a b => b.created_at ≤ a.created_at)
        ∧ sel.length ≤ limit)
    ∧ list_tasks_call [(("user_id"), .int uid), (("filter"), .str f)] st ctx
        = .ok (list_tasks_run (.int uid) (.str f) (.int 50) st).1 st ctx := by
  have hA : ¬ uid ≤ 0 := by omega
  have hc : ([("all"), ("pending"), ("completed")].contains f) = true :=
    List.elem_eq_true_of_mem hf
  have hor : f = ("all") ∨ f = ("pending") ∨ f = ("completed") := by simpa using hf
  refine ⟨fun uidV filterV limitV st0 => list_tasks_run_store uidV filterV limitV st0,
    ⟨(tasks_query st uid f).take limit, rfl, ?_, ?_, ?_, ?_⟩, ?_⟩
  · have hnn : ¬ ((limit : Int) < 0) := not_lt.mpr (Int.natCast_nonneg limit)
    simp [list_tasks_run, uid_check, hA, hc, hor, apply_limit, hnn, Int.toNat_natCast]
  · intro t ht
    have h1 : t ∈ tasks_query st uid f := List.take_subset _ _ ht
    unfold tasks_query at h1
    rw [List.mem_insertionSort] at h1
    obtain ⟨-, hcond⟩ := List.mem_filter.mp h1
    simp only [Bool.and_eq_true, beq_iff_eq] at hcond
    exact hcond
  · haveI htot : IsTotal Task (fun a b => b.created_at ≤ a.created_at) :=
      ⟨fun a b => Int.le_total b.created_at a.created_at⟩
    haveI htr : IsTrans Task (fun a b => b.created_at ≤ a.created_at) :=
      ⟨fun a b c hab hbc => le_trans hbc hab⟩
    have hs : List.Sorted (fun a b : Task => b.created_at ≤ a.created_at)
        (tasks_query st uid f) := by
      unfold tasks_query
      exact List.sorted_insertionSort _ _
    exact List.Pairwise.sublist (List.take_sublist _ _) hs
  · rw [List.length_take]
    exact Nat.min_le_left _ _
  · have g1 : getParam [(("user_id"), PyVal.int uid), (("filter"), PyVal.str f)] ("user_id")
        = some (PyVal.int uid) := rfl
    have g2 : getParam [(("user_id"), PyVal.int uid), (("filter"), PyVal.str f)] ("filter")
        = some (PyVal.str f) := rfl
    have g3 : getParam [(("user_id"), PyVal.int uid), (("filter"), PyVal.str f)] ("limit")
        = Option.none := rfl
    simp [list_tasks_call, g1, g2, g3, list_tasks_run_store]

/-- Witness for C10: two tasks, pending filter, default limit. -/
theorem list_tasks_read_only_filtered_sorted_witness :
    list_tasks_call [(("user_id"), .int 1), (("filter"), .str ("pending"))]
        [⟨1, 1, ("a"), (""), false, 1, 1⟩, ⟨2, 1, ("b"), (""), true, 2, 2⟩] ⟨9, 9⟩
      = .ok (list_tasks_run (.int 1) (.str ("pending")) (.int 50)
            [⟨1, 1, ("a"), (""), false, 1, 1⟩, ⟨2, 1, ("b"), (""), true, 2, 2⟩]).1
          [⟨1, 1, ("a"), (""), false, 1, 1⟩, ⟨2, 1, ("b"), (""), true, 2, 2⟩] ⟨9, 9⟩ :=
  (list_tasks_read_only_filtered_sorted 1 ("pending") 50
    [⟨1, 1, ("a"), (""), false, 1, 1⟩, ⟨2, 1, ("b"), (""), true, 2, 2⟩] ⟨9, 9⟩
    (by decide) (by decide)).2.2

/-- Claim C8 evaluated at its failing input: a conversation holding 51
    messages (creation times 1..51) loaded at the default limit of 50
    returns the oldest fifty (times 1..50) and omits the newest message,
    where the claim says the most recent fifty are returned. -/
theorem history_load_returns_oldest :
    ((load_conversation_history_default ((List.range 51).map
          (fun i => ⟨Int.ofNat i + 1, 1, 1, ("user"), ("m"), Int.ofNat i + 1⟩)) 1).map
        (fun m => m.created_at)
      = (List.range 50).map (fun i => Int.ofNat i + 1))
    ∧ (load_conversation_history_default ((List.range 51).map
          (fun i => ⟨Int.ofNat i + 1, 1, 1, ("user"), ("m"), Int.ofNat i + 1⟩)) 1).length = 50
    ∧ ((load_conversation_history_default ((List.range 51).map
          (fun i => ⟨Int.ofNat i + 1, 1, 1, ("user"), ("m"), Int.ofNat i + 1⟩)) 1).all
        (fun m => m.created_at != 51)) = true := by
  refine ⟨by decide, by decide, by decide⟩

end TodoChat
